import Mathlib

/-!
Shallow embedding of the QEMU NFS block driver (`block/nfs.c`) for
specification checking.

Modelling conventions:
* C integers are modelled as `Int` (statuses, sizes reported by the engine)
  or `Nat` (non-negative quantities such as buffer lengths and sector counts).
* Byte buffers (`QEMUIOVector` contents, the engine's `data` payload) are
  `List Nat`.
* C strings are `List Char`; the terminating NUL is represented by the end of
  the list, which matches how `strncmp` is modelled below.
* The foreign protocol engine (libnfs) is an external collaborator: its
  completion status, payload, and the return codes of `nfs_mount`,
  `nfs_creat`, `nfs_open`, `nfs_fstat` are inputs to the model.
* Side effects on external systems (reactor fd registration, engine context
  destruction, deferred-callback scheduling) are returned as explicit effect
  values so theorems can talk about them.
-/

namespace Nfs

/-- `BDRV_SECTOR_SIZE` from `block.h`: `1 << BDRV_SECTOR_BITS` with
`BDRV_SECTOR_BITS = 9`. -/
def BDRV_SECTOR_SIZE : Nat := 512

/-- errno value `EIO` (the driver returns `-EIO`). -/
def EIO_errno : Int := 5

/-- errno value `ENOMEM` (the driver returns `-ENOMEM` on submission failure). -/
def ENOMEM : Int := 12

/-- errno value `EINVAL` (initial `ret` in `nfs_client_open`). -/
def EINVAL : Int := 22

/-- `POLLIN` bit of the poll event mask. -/
def POLLIN : Nat := 1

/-- `POLLOUT` bit of the poll event mask. -/
def POLLOUT : Nat := 4

/-- The fields of `struct stat` the driver reads: `st_size`, `st_blocks`,
`st_blksize`, and `S_ISREG(st_mode)`.  File sizes are non-negative, so
`st_size` is a `Nat`; `st_blocks`/`st_blksize` are kept as `Int` exactly as
reported. -/
structure Stat where
  st_size : Nat
  st_blocks : Int
  st_blksize : Int
  st_isreg : Bool
deriving DecidableEq

/-- The engine context state the driver mutates through `nfs_set_uid`,
`nfs_set_gid`, `nfs_set_tcp_syncnt` (`struct nfs_context` is otherwise
opaque to the driver). -/
structure NFSContext where
  uid : Int
  gid : Int
  tcp_syncnt : Int
deriving DecidableEq

/-- `struct NFSClient`: engine context (nullable), file handle (nullable,
modelled by presence), last-registered event mask, zero-init flag. -/
structure NFSClient where
  context : Option NFSContext
  fh : Bool
  events : Nat
  has_zero_init : Bool
deriving DecidableEq

/-- The all-zero `NFSClient` produced by `memset(client, 0, sizeof(NFSClient))`. -/
def zeroClient : NFSClient :=
  { context := none, fh := false, events := 0, has_zero_init := false }

/-- `struct NFSRPC`: status, completion flag, optional result buffer
(`QEMUIOVector`, modelled by its byte contents), optional stat buffer
(modelled by its contents), and whether a coroutine is bound (`co`).
The `bh` handle is not state the theorems need; scheduling it is an
effect recorded in the callback's write trace. -/
structure NFSRPC where
  status : Int
  complete : Bool
  iov : Option (List Nat)
  st : Option Stat
  hasCo : Bool
deriving DecidableEq

/-- `nfs_co_init_task`: `*task = (NFSRPC) { .co = qemu_coroutine_self() }`,
i.e. everything zeroed except the bound coroutine. -/
def nfs_co_init_task : NFSRPC :=
  { status := 0, complete := false, iov := none, st := none, hasCo := true }

/-- `qemu_iovec_from_buf(iov, offset, buf, bytes)`: copy `bytes` bytes of
`src` into the vector at `offset`, leaving the rest intact. -/
def qemu_iovec_from_buf (iov : List Nat) (offset : Nat) (src : List Nat)
    (bytes : Nat) : List Nat :=
  iov.take offset ++ src.take bytes ++ iov.drop (offset + bytes)

/-- `qemu_iovec_memset(iov, offset, c, bytes)`: write byte `c` into the
vector over `[offset, offset + bytes)`, clipped to the vector's size. -/
def qemu_iovec_memset (iov : List Nat) (offset : Nat) (c : Nat)
    (bytes : Nat) : List Nat :=
  iov.take offset ++ List.replicate (min bytes (iov.length - offset)) c ++
    iov.drop (offset + bytes)

/-- The observable actions `nfs_co_generic_cb` performs on the task, in
program order: setting the completion flag, writing the status field,
copying bytes into the result buffer, copying the stat buffer, and
scheduling the deferred (bottom-half) wake-up. -/
inductive CbWrite where
  | setComplete : CbWrite
  | setStatus : Int → CbWrite
  | copyIov : Nat → CbWrite
  | copyStat : CbWrite
  | scheduleBh : CbWrite
deriving DecidableEq

/-- Writes that store result data into the task (status or buffer copies),
as opposed to the completion flag and the wake-up scheduling. -/
def isTaskDataWrite : CbWrite → Bool
  | .setStatus _ => true
  | .copyIov _ => true
  | .copyStat => true
  | _ => false

/-- Recognizer for the completion-flag write. -/
def isSetComplete : CbWrite → Bool
  | .setComplete => true
  | _ => false

/-- Recognizer for the deferred wake-up scheduling. -/
def isScheduleBh : CbWrite → Bool
  | .scheduleBh => true
  | _ => false

/-- Does the trace contain a result-buffer copy? -/
def hasCopyIov (tr : List CbWrite) : Bool :=
  tr.any fun w => match w with
    | .copyIov _ => true
    | _ => false

/-- `nfs_co_generic_cb(status, nfs, data, private_data)` from `block/nfs.c`
lines 102-126, as a function from the engine-reported `status`, the payload
`data` (bytes for reads, `statData` for stat queries) and the task state to
the new task state plus the ordered trace of writes it performs:
1. `task->complete = 1;`
2. `task->status = status;`
3. if `task->status > 0 && task->iov`: copy when
   `task->status <= task->iov->size`, else `task->status = -EIO;`
4. if `task->status == 0 && task->st`: copy the stat payload;
5. the negative-status branch only logs (`error_report`) and writes no
   task state;
6. if `task->co`: create and schedule the bottom half. -/
def nfs_co_generic_cb (status : Int) (data : List Nat) (statData : Stat)
    (task : NFSRPC) : NFSRPC × List CbWrite :=
  let t1 : NFSRPC := { task with complete := true, status := status }
  let step2 : NFSRPC × List CbWrite :=
    match t1.iov with
    | some iov =>
      if 0 < t1.status then
        if t1.status ≤ (iov.length : Int) then
          ({ t1 with iov := some (qemu_iovec_from_buf iov 0 data t1.status.toNat) },
           [CbWrite.copyIov t1.status.toNat])
        else
          ({ t1 with status := -EIO_errno }, [CbWrite.setStatus (-EIO_errno)])
      else (t1, [])
    | none => (t1, [])
  let t2 := step2.1
  let step3 : NFSRPC × List CbWrite :=
    match t2.st with
    | some _ =>
      if t2.status = 0 then ({ t2 with st := some statData }, [CbWrite.copyStat])
      else (t2, [])
    | none => (t2, [])
  let t3 := step3.1
  let w4 : List CbWrite := if t3.hasCo then [CbWrite.scheduleBh] else []
  (t3, [CbWrite.setComplete, CbWrite.setStatus status] ++ step2.2 ++ step3.2 ++ w4)

/-- The ordering property claimed of the callback: every result write
(status or data copy) happens strictly before the completion flag is set,
i.e. no such write occurs at or after the flag write in the trace. -/
def writes_before_complete_flag (tr : List CbWrite) : Bool :=
  (tr.dropWhile fun w => !(isSetComplete w)).all fun w => !(isTaskDataWrite w)

/-- A stat payload used where the engine's `data` pointer does not carry
stat information (read/write/flush completions). -/
def dummyStat : Stat := { st_size := 0, st_blocks := 0, st_blksize := 0, st_isreg := false }

/-- `nfs_co_readv` lines 145-159: the code run after the wait loop observes
`task.complete`, as a function of the completed task.  Returns the
operation's return value and the final buffer contents:
`if (task.status < 0) return task.status;`
`if (task.status < iov->size) qemu_iovec_memset(iov, task.status, 0, iov->size - task.status);`
`return 0;` -/
def nfs_co_readv_finish (task : NFSRPC) : Int × Option (List Nat) :=
  match task.iov with
  | none => (if task.status < 0 then task.status else 0, none)
  | some iov =>
    if task.status < 0 then (task.status, some iov)
    else if task.status < (iov.length : Int) then
      (0, some (qemu_iovec_memset iov task.status.toNat 0
                  (iov.length - task.status.toNat)))
    else (0, some iov)

/-- `nfs_co_readv`: init task with the caller's vector, submit
(`submit_ok = false` models `nfs_pread_async` returning non-zero, which
yields `-ENOMEM` before any completion), wait for the completion callback
(its status/data are the engine inputs), then run the post-wait code. -/
def nfs_co_readv (submit_ok : Bool) (engineStatus : Int) (data : List Nat)
    (iov : List Nat) : Int × Option (List Nat) :=
  let task : NFSRPC := { nfs_co_init_task with iov := some iov }
  if !submit_ok then (-ENOMEM, some iov)
  else nfs_co_readv_finish (nfs_co_generic_cb engineStatus data dummyStat task).1

/-- `nfs_co_writev` lines 162-195: the task has no result buffer and no stat
buffer; after the wait loop,
`if (task.status != nb_sectors * BDRV_SECTOR_SIZE) return task.status < 0 ? task.status : -EIO;`
`return 0;` -/
def nfs_co_writev (submit_ok : Bool) (engineStatus : Int) (nb_sectors : Nat) : Int :=
  let task := nfs_co_init_task
  if !submit_ok then -ENOMEM
  else
    let task := (nfs_co_generic_cb engineStatus [] dummyStat task).1
    if task.status ≠ ((nb_sectors * BDRV_SECTOR_SIZE : Nat) : Int) then
      if task.status < 0 then task.status else -EIO_errno
    else 0

/-- `nfs_co_flush` lines 197-215: submit `nfs_fsync_async`, wait, then
`return task.status;`. -/
def nfs_co_flush (submit_ok : Bool) (engineStatus : Int) : Int :=
  if !submit_ok then -ENOMEM
  else ((nfs_co_generic_cb engineStatus [] dummyStat nfs_co_init_task).1).status

/-- `nfs_get_allocated_file_size` lines 397-415: `NFSRPC task = {0};` (so no
coroutine is bound), `task.st = &st` where `st` is an uninitialized stack
variable (modelled by `stackSt`), submit `nfs_fstat_async`, wait with
`qemu_aio_wait`, then
`return task.status < 0 ? task.status : st.st_blocks * st.st_blksize;`.
The completion callback copies the engine's stat payload `reported` into
`st` only when the completed status is zero. -/
def nfs_get_allocated_file_size (submit_ok : Bool) (engineStatus : Int)
    (reported : Stat) (stackSt : Stat) : Int :=
  let task : NFSRPC :=
    { status := 0, complete := false, iov := none, st := some stackSt, hasCo := false }
  if !submit_ok then -ENOMEM
  else
    let task := (nfs_co_generic_cb engineStatus [] reported task).1
    let st := task.st.getD stackSt
    if task.status < 0 then task.status else st.st_blocks * st.st_blksize

/-- External operations `nfs_client_close` performs: `nfs_close` on the file
handle, clearing the fd handler in the reactor, `nfs_destroy_context`. -/
structure CloseFx where
  nfs_close_called : Bool
  fd_handler_cleared : Bool
  context_destroyed : Bool
deriving DecidableEq

/-- The effect record of a close that touches neither engine nor reactor. -/
def noCloseFx : CloseFx :=
  { nfs_close_called := false, fd_handler_cleared := false, context_destroyed := false }

/-- `nfs_client_close` lines 231-241: if a context is present, close the file
handle if present, unregister the fd handler, destroy the context; then
`memset(client, 0, sizeof(NFSClient))` unconditionally. -/
def nfs_client_close (client : NFSClient) : NFSClient × CloseFx :=
  match client.context with
  | some _ =>
    (zeroClient,
     { nfs_close_called := client.fh, fd_handler_cleared := true,
       context_destroyed := true })
  | none => (zeroClient, noCloseFx)

/-- A reactor registration performed by `qemu_aio_set_fd_handler`: whether a
read handler and a write handler were installed (both `false` models passing
`NULL, NULL`, i.e. unregistering). -/
structure FdHandlers where
  read_handler : Bool
  write_handler : Bool
deriving DecidableEq

/-- `nfs_set_events` lines 61-72, with `ev = nfs_which_events(context)` (the
engine's currently desired readiness mask) supplied as an input: re-register
only when `ev != client->events`, installing the read handler iff
`ev & POLLIN` and the write handler iff `ev & POLLOUT`; afterwards always
store `client->events = ev`.  Returns the updated client and the
registration performed, if any. -/
def nfs_set_events (client : NFSClient) (ev : Nat) : NFSClient × Option FdHandlers :=
  if ev ≠ client.events then
    ({ client with events := ev },
     some { read_handler := ev.land POLLIN != 0, write_handler := ev.land POLLOUT != 0 })
  else
    ({ client with events := ev }, none)

/-- A query parameter as produced by `query_params_parse`: a name and an
optional value (C strings as char lists). -/
structure QParam where
  name : List Char
  value : Option (List Char)
deriving DecidableEq

/-- `strncmp(a, b, n) == 0` on NUL-terminated strings modelled as char
lists (the end of the list is the NUL): compare at most `n` characters,
stopping early at the end of either string. -/
def strncmp_eq : List Char → List Char → Nat → Bool
  | _, _, 0 => true
  | [], [], _ + 1 => true
  | [], _ :: _, _ + 1 => false
  | _ :: _, [], _ + 1 => false
  | a :: as, b :: bs, n + 1 => a == b && strncmp_eq as bs n

/-- The digit-consuming loop of C `atoi`: accumulate decimal digits,
stopping at the first non-digit. -/
def atoiDigits : List Char → Int → Int
  | [], acc => acc
  | c :: cs, acc =>
    if c.isDigit then atoiDigits cs (acc * 10 + ((c.toNat - '0'.toNat : Nat) : Int))
    else acc

/-- C `atoi`: skip leading whitespace, consume an optional sign, then
decimal digits. -/
def atoi (s : List Char) : Int :=
  match s.dropWhile Char.isWhitespace with
  | '-' :: rest => -(atoiDigits rest 0)
  | '+' :: rest => atoiDigits rest 0
  | t => atoiDigits t 0

/-- The error cases of `nfs_client_open`, distinguished by the
`error_setg` message the code emits on each failure path. -/
inductive OpenErr where
  | invalidURL : OpenErr
  | contextFail : OpenErr
  | paramNoValue : OpenErr
  | unknownParam : OpenErr
  | mountFail : OpenErr
  | createFail : OpenErr
  | openFileFail : OpenErr
  | fstatFail : OpenErr
deriving DecidableEq

/-- The query-parameter loop of `nfs_client_open` lines 278-295, threading
the engine context the recognized parameters mutate.  Note the source
recognizes names by `strncmp` with lengths 3 / 3 / 10, i.e. by prefix:
`!strncmp(name, "uid", 3)`, `!strncmp(name, "gid", 3)`,
`!strncmp(name, "tcp-syncnt", 10)`.  On failure the partially-updated
context is returned alongside the error. -/
def nfs_open_params_loop :
    List QParam → NFSContext → Except (OpenErr × NFSContext) NFSContext
  | [], ctx => .ok ctx
  | p :: rest, ctx =>
    match p.value with
    | none => .error (.paramNoValue, ctx)
    | some v =>
      if strncmp_eq p.name "uid".toList 3 then
        nfs_open_params_loop rest { ctx with uid := atoi v }
      else if strncmp_eq p.name "gid".toList 3 then
        nfs_open_params_loop rest { ctx with gid := atoi v }
      else if strncmp_eq p.name "tcp-syncnt".toList 10 then
        nfs_open_params_loop rest { ctx with tcp_syncnt := atoi v }
      else .error (.unknownParam, ctx)

/-- The result of `uri_parse` + the `strrchr(uri->path, '/')` split: server,
share path, whether the path contains a `/` (otherwise open fails with
"Invalid URL specified"), and the parsed query parameters. -/
structure ParsedURI where
  server : List Char
  path : List Char
  pathHasSlash : Bool
  query : List QParam
deriving DecidableEq

/-- The external collaborators of `nfs_client_open`: the URL parser's
output (`none` models `uri_parse` failing), whether `nfs_init_context`
succeeds, and the return values of `nfs_mount`, `nfs_creat`, `nfs_open`,
`nfs_fstat` together with the stat the latter fills in on success. -/
structure OpenEnv where
  uri : Option ParsedURI
  init_context_ok : Bool
  mount_ret : Int
  creat_ret : Int
  open_ret : Int
  fstat_ret : Int
  st : Stat
deriving DecidableEq

/-- `DIV_ROUND_UP(n, d)` from `osdep.h`: `((n) + (d) - 1) / (d)`. -/
def DIV_ROUND_UP (n d : Nat) : Nat := (n + d - 1) / d

/-- A fresh engine context as returned by `nfs_init_context` (the driver
never reads these fields back, only sets them). -/
def freshContext : NFSContext := { uid := 0, gid := 0, tcp_syncnt := 0 }

/-- `nfs_client_open` lines 249-339: parse the URL, split off the file
name, init the engine context, process query parameters, mount, create or
open the file depending on `o_creat` (`flags & O_CREAT`), fstat it, and
return `DIV_ROUND_UP(st.st_size, BDRV_SECTOR_SIZE)` with
`has_zero_init = S_ISREG(st.st_mode)`.  Every failure path runs
`nfs_client_close(client)` (`goto fail`) and returns the current `ret`
(`-EINVAL` until `nfs_mount`, thereafter the failing call's return value).
Result: (return value, final client, error kind if any). -/
def nfs_client_open (env : OpenEnv) (o_creat : Bool) (client : NFSClient) :
    Int × NFSClient × Option OpenErr :=
  match env.uri with
  | none => (-EINVAL, (nfs_client_close client).1, some .invalidURL)
  | some uri =>
    if !uri.pathHasSlash then
      (-EINVAL, (nfs_client_close client).1, some .invalidURL)
    else if !env.init_context_ok then
      (-EINVAL, (nfs_client_close { client with context := none }).1, some .contextFail)
    else
      let c1 : NFSClient := { client with context := some freshContext }
      match nfs_open_params_loop uri.query freshContext with
      | .error (e, ctx) =>
        (-EINVAL, (nfs_client_close { c1 with context := some ctx }).1, some e)
      | .ok ctx =>
        let c2 : NFSClient := { c1 with context := some ctx }
        if env.mount_ret < 0 then
          (env.mount_ret, (nfs_client_close c2).1, some .mountFail)
        else
          let file_ret := if o_creat then env.creat_ret else env.open_ret
          if file_ret < 0 then
            (file_ret, (nfs_client_close c2).1,
             some (if o_creat then .createFail else .openFileFail))
          else
            let c3 : NFSClient := { c2 with fh := true }
            if env.fstat_ret < 0 then
              (env.fstat_ret, (nfs_client_close c3).1, some .fstatFail)
            else
              (((DIV_ROUND_UP env.st.st_size BDRV_SECTOR_SIZE : Nat) : Int),
               { c3 with has_zero_init := env.st.st_isreg }, none)

/-- The claim's reading of parameter recognition: the name is exactly one
of `uid`, `gid`, `tcp-syncnt`. -/
def param_name_recognized_exact (p : QParam) : Bool :=
  p.name == "uid".toList || p.name == "gid".toList || p.name == "tcp-syncnt".toList

/-- A parameter the source actually rejects: it has no value, or its name
matches none of the three `strncmp` prefix tests. -/
def param_bad (p : QParam) : Bool :=
  p.value.isNone ||
  !(strncmp_eq p.name "uid".toList 3 || strncmp_eq p.name "gid".toList 3 ||
    strncmp_eq p.name "tcp-syncnt".toList 10)

/-- A concrete stat payload used in concrete evaluations. -/
def statReported : Stat := { st_size := 0, st_blocks := 3, st_blksize := 512, st_isreg := false }

/-- A parsed URL whose only query parameter is `uidx=7`: the name is not in
the enumerated set `{uid, gid, tcp-syncnt}` but starts with `uid`. -/
def uriPrefixParam : ParsedURI :=
  { server := "srv".toList, path := "export".toList, pathHasSlash := true,
    query := [{ name := "uidx".toList, value := some "7".toList }] }

/-- An open environment where every engine call succeeds and the URL is
`uriPrefixParam`. -/
def envPrefixParam : OpenEnv :=
  { uri := some uriPrefixParam, init_context_ok := true, mount_ret := 0,
    creat_ret := 0, open_ret := 0, fstat_ret := 0,
    st := { st_size := 1025, st_blocks := 8, st_blksize := 512, st_isreg := true } }

/-- A parsed URL with the unknown query parameter `foo=bar`. -/
def uriBadParam : ParsedURI :=
  { server := "srv".toList, path := "export".toList, pathHasSlash := true,
    query := [{ name := "foo".toList, value := some "bar".toList }] }

/-- An open environment where every engine call would succeed but the URL
carries the unknown parameter `foo=bar`. -/
def envBadParam : OpenEnv :=
  { uri := some uriBadParam, init_context_ok := true, mount_ret := 0,
    creat_ret := 0, open_ret := 0, fstat_ret := 0,
    st := { st_size := 1025, st_blocks := 8, st_blksize := 512, st_isreg := true } }

/-- A parsed URL with well-formed query parameters `uid=1000&gid=1000`. -/
def uriOpenOk : ParsedURI :=
  { server := "srv".toList, path := "export".toList, pathHasSlash := true,
    query := [{ name := "uid".toList, value := some "1000".toList },
              { name := "gid".toList, value := some "1000".toList }] }

/-- An open environment where every step succeeds and the file has a byte
size (1025) that is not a multiple of the sector size. -/
def envOpenOk : OpenEnv :=
  { uri := some uriOpenOk, init_context_ok := true, mount_ret := 0,
    creat_ret := 0, open_ret := 0, fstat_ret := 0,
    st := { st_size := 1025, st_blocks := 8, st_blksize := 512, st_isreg := true } }

/-! ## Theorems -/

/-- C1, counterexample: the claim says the callback writes the status field
before setting the completion flag, but on a concrete read completion
(status 7 into an 8-byte buffer) the trace is
`[setComplete, setStatus 7, copyIov 7, scheduleBh]`: the completion flag is
set first, so the claimed ordering predicate is false. -/
theorem cb_status_write_after_flag_cex :
    (nfs_co_generic_cb 7 [1, 2, 3, 4, 5, 6, 7] dummyStat
        { nfs_co_init_task with iov := some (List.replicate 8 0) }).2 =
      [CbWrite.setComplete, CbWrite.setStatus 7, CbWrite.copyIov 7,
       CbWrite.scheduleBh] ∧
    writes_before_complete_flag
      ((nfs_co_generic_cb 7 [1, 2, 3, 4, 5, 6, 7] dummyStat
        { nfs_co_init_task with iov := some (List.replicate 8 0) }).2) = false := by
  decide

/-- C1, amended: the callback sets the completion flag first (`task->complete
= 1;` is its first statement) and only then writes the status and performs
the buffer/stat copies; all of those data writes happen before the deferred
wake-up callback is scheduled, so a waiter resumed through the deferred
callback observes the final status and data. -/
theorem cb_flag_first_then_writes_before_wakeup (s : Int) (data : List Nat)
    (stat : Stat) (task : NFSRPC) :
    (nfs_co_generic_cb s data stat task).2.head? = some CbWrite.setComplete ∧
    (((nfs_co_generic_cb s data stat task).2.dropWhile fun w => !(isScheduleBh w)).all
        fun w => !(isTaskDataWrite w)) = true := by
  obtain ⟨ts, tc, tiov, tst, tco⟩ := task
  cases tiov <;> cases tst <;> cases tco <;>
    simp only [nfs_co_generic_cb] <;> split_ifs <;>
    simp [isScheduleBh, isTaskDataWrite, List.dropWhile, List.all_eq_true]

/-- C6: the flush operation returns exactly the completed task's status, as
recorded by the generic completion callback, with no transformation. -/
theorem flush_returns_status_unchanged (s : Int) :
    nfs_co_flush true s =
      ((nfs_co_generic_cb s [] dummyStat nfs_co_init_task).1).status ∧
    nfs_co_flush true s = s :=
  ⟨rfl, rfl⟩

/-- C8: close is total and idempotent: on any client state (including
partially-initialized ones) one call leaves the all-zero closed state, and a
second call on that state changes nothing and performs no engine or reactor
operation. -/
theorem close_idempotent_total (c : NFSClient) :
    (nfs_client_close c).1 = zeroClient ∧
    nfs_client_close (nfs_client_close c).1 = (zeroClient, noCloseFx) := by
  refine ⟨?_, ?_⟩
  · cases h : c.context <;> simp [nfs_client_close, h]
  · cases h : c.context <;> simp [nfs_client_close, h, zeroClient, noCloseFx]

/-- C2: when the engine reports a positive byte count strictly greater than
the result buffer's capacity, the callback copies nothing (the buffer is
unchanged and the trace has no copy event) and overwrites the status with
`-EIO`; when the count is positive and at most the capacity, the bytes are
copied in. -/
theorem cb_bounded_copy (s : Int) (data : List Nat) (stat : Stat)
    (task : NFSRPC) (iov : List Nat) (hiov : task.iov = some iov) :
    ((iov.length : Int) < s →
      (nfs_co_generic_cb s data stat task).1.status = -EIO_errno ∧
      (nfs_co_generic_cb s data stat task).1.iov = some iov ∧
      hasCopyIov (nfs_co_generic_cb s data stat task).2 = false) ∧
    (0 < s → s ≤ (iov.length : Int) →
      (nfs_co_generic_cb s data stat task).1.iov =
        some (qemu_iovec_from_buf iov 0 data s.toNat) ∧
      hasCopyIov (nfs_co_generic_cb s data stat task).2 = true) := by
  obtain ⟨ts, tc, tiov, tst, tco⟩ := task
  simp only [NFSRPC.iov] at hiov
  subst hiov
  constructor
  · intro hlt
    have hpos : 0 < s := lt_of_le_of_lt (Int.ofNat_nonneg iov.length) hlt
    have hnle : ¬ s ≤ (iov.length : Int) := not_le.mpr hlt
    cases tst <;> cases tco <;>
      simp [nfs_co_generic_cb, hpos, hnle, hasCopyIov, EIO_errno]
  · intro hpos hle
    cases tst <;> cases tco <;>
      simp [nfs_co_generic_cb, hpos, hle, hpos.ne', hasCopyIov]

/-- C2 witness: concrete oversize completion (status 9 into an 8-byte
buffer) and concrete in-bounds completion (status 7). -/
theorem cb_bounded_copy_witness :
    ((nfs_co_generic_cb 9 (List.replicate 9 1) dummyStat
        { nfs_co_init_task with iov := some (List.replicate 8 0) }).1.status = -EIO_errno ∧
     (nfs_co_generic_cb 9 (List.replicate 9 1) dummyStat
        { nfs_co_init_task with iov := some (List.replicate 8 0) }).1.iov =
       some (List.replicate 8 0) ∧
     hasCopyIov (nfs_co_generic_cb 9 (List.replicate 9 1) dummyStat
        { nfs_co_init_task with iov := some (List.replicate 8 0) }).2 = false) ∧
    ((nfs_co_generic_cb 7 (List.replicate 9 1) dummyStat
        { nfs_co_init_task with iov := some (List.replicate 8 0) }).1.iov =
       some (qemu_iovec_from_buf (List.replicate 8 0) 0 (List.replicate 9 1)
              (7 : Int).toNat) ∧
     hasCopyIov (nfs_co_generic_cb 7 (List.replicate 9 1) dummyStat
        { nfs_co_init_task with iov := some (List.replicate 8 0) }).2 = true) :=
  ⟨(cb_bounded_copy 9 (List.replicate 9 1) dummyStat
      { nfs_co_init_task with iov := some (List.replicate 8 0) }
      (List.replicate 8 0) rfl).1 (by decide),
   (cb_bounded_copy 7 (List.replicate 9 1) dummyStat
      { nfs_co_init_task with iov := some (List.replicate 8 0) }
      (List.replicate 8 0) rfl).2 (by decide) (by decide)⟩

/-- C3: a write of `nb_sectors` sectors succeeds (returns 0) iff the
completed status equals exactly `nb_sectors * BDRV_SECTOR_SIZE`; a negative
status is returned verbatim; any other non-negative status yields `-EIO`. -/
theorem writev_exact_count (s : Int) (nb : Nat) :
    (nfs_co_writev true s nb = 0 ↔ s = ((nb * BDRV_SECTOR_SIZE : Nat) : Int)) ∧
    (s < 0 → nfs_co_writev true s nb = s) ∧
    (0 ≤ s → s ≠ ((nb * BDRV_SECTOR_SIZE : Nat) : Int) →
      nfs_co_writev true s nb = -EIO_errno) := by
  have hred : nfs_co_writev true s nb =
      if s ≠ ((nb * BDRV_SECTOR_SIZE : Nat) : Int) then
        if s < 0 then s else -EIO_errno
      else 0 := rfl
  rw [hred]
  simp only [BDRV_SECTOR_SIZE, EIO_errno]
  refine ⟨?_, fun hneg => ?_, fun hnonneg hne => ?_⟩ <;> split_ifs <;>
    first
    | omega
    | simp_all

/-- C3 witness: concrete one-sector writes with statuses -3 (verbatim
error), 100 (short count, `-EIO`) and 512 (exact, success). -/
theorem writev_exact_count_witness :
    nfs_co_writev true (-3) 1 = -3 ∧
    nfs_co_writev true 100 1 = -EIO_errno ∧
    nfs_co_writev true 512 1 = 0 :=
  ⟨(writev_exact_count (-3) 1).2.1 (by decide),
   (writev_exact_count 100 1).2.2 (by decide) (by decide),
   (writev_exact_count 512 1).1.mpr (by decide)⟩

/-- C4: once the read's task completes with a non-negative status smaller
than the requested byte length, the post-wait code returns 0 and the buffer
equals its first `status` bytes followed by zeros; a negative completed
status is returned verbatim and the buffer is untouched. -/
theorem readv_zero_fill_short_read (task : NFSRPC) (iov : List Nat)
    (hiov : task.iov = some iov) :
    (0 ≤ task.status → task.status < (iov.length : Int) →
      nfs_co_readv_finish task =
        (0, some (iov.take task.status.toNat ++
                  List.replicate (iov.length - task.status.toNat) 0))) ∧
    (task.status < 0 → nfs_co_readv_finish task = (task.status, some iov)) := by
  constructor
  · intro h0 hlt
    have hmn : task.status.toNat < iov.length := by omega
    have hno : ¬ task.status < 0 := not_lt.mpr h0
    simp only [nfs_co_readv_finish, hiov, hno, if_false, hlt, if_true,
      qemu_iovec_memset]
    have hdrop : iov.drop (task.status.toNat + (iov.length - task.status.toNat)) = [] := by
      apply List.drop_eq_nil_of_le; omega
    rw [hdrop, Nat.min_self, List.append_nil]
  · intro hneg
    simp [nfs_co_readv_finish, hiov, hneg]

/-- C4 witness: a completed 5-byte read task with status 3 zero-fills bytes
3 and 4 and returns 0; a completed task with status -5 returns -5. -/
theorem readv_zero_fill_short_read_witness :
    nfs_co_readv_finish
        { status := 3, complete := true, iov := some [9, 9, 9, 9, 9],
          st := none, hasCo := true } =
      (0, some (([9, 9, 9, 9, 9] : List Nat).take (3 : Int).toNat ++
                List.replicate (([9, 9, 9, 9, 9] : List Nat).length - (3 : Int).toNat) 0)) ∧
    nfs_co_readv_finish
        { status := -5, complete := true, iov := some [9, 9, 9, 9, 9],
          st := none, hasCo := true } = (-5, some [9, 9, 9, 9, 9]) :=
  ⟨(readv_zero_fill_short_read
      { status := 3, complete := true, iov := some [9, 9, 9, 9, 9],
        st := none, hasCo := true } [9, 9, 9, 9, 9] rfl).1 (by decide) (by decide),
   (readv_zero_fill_short_read
      { status := -5, complete := true, iov := some [9, 9, 9, 9, 9],
        st := none, hasCo := true } [9, 9, 9, 9, 9] rfl).2 (by decide)⟩

/-- Helper for C5: if the query list contains a parameter the source
rejects (no value, or a name matching none of the three prefix tests), the
parameter loop stops with a `paramNoValue` or `unknownParam` error,
whatever the starting context. -/
theorem params_loop_bad_error (ps : List QParam) (ctx : NFSContext)
    (h : ∃ p ∈ ps, param_bad p = true) :
    ∃ e ctx', nfs_open_params_loop ps ctx = .error (e, ctx') ∧
      (e = OpenErr.paramNoValue ∨ e = OpenErr.unknownParam) := by
  induction ps generalizing ctx with
  | nil => simp at h
  | cons p rest ih =>
    rcases h with ⟨q, hq, hbad⟩
    rcases hval : p.value with _ | v
    · exact ⟨.paramNoValue, ctx, by simp [nfs_open_params_loop, hval], Or.inl rfl⟩
    · rcases List.mem_cons.mp hq with hqp | hqr
      · subst hqp
        have h3 : (strncmp_eq q.name ['u', 'i', 'd'] 3 = false ∧
            strncmp_eq q.name ['g', 'i', 'd'] 3 = false) ∧
            strncmp_eq q.name ['t', 'c', 'p', '-', 's', 'y', 'n', 'c', 'n', 't'] 10 = false := by
          simpa [param_bad, hval] using hbad
        exact ⟨.unknownParam, ctx,
          by simp [nfs_open_params_loop, hval, h3.1.1, h3.1.2, h3.2], Or.inr rfl⟩
      · have hrest : ∃ r ∈ rest, param_bad r = true := ⟨q, hqr, hbad⟩
        simp only [nfs_open_params_loop, hval]
        split_ifs with h1 h2 h3
        · exact ih _ hrest
        · exact ih _ hrest
        · exact ih _ hrest
        · exact ⟨.unknownParam, ctx, rfl, Or.inr rfl⟩

/-- C5, counterexample: the parameter `uidx=7` is not in the enumerated set
`{uid, gid, tcp-syncnt}`, yet open does not fail: it succeeds (no error,
file handle open) and applied `atoi("7")` as the uid, because the source
recognizes names with `strncmp(name, "uid", 3)`, a 3-character prefix
match. -/
theorem open_accepts_prefix_param_cex :
    param_name_recognized_exact
      { name := "uidx".toList, value := some "7".toList } = false ∧
    (nfs_client_open envPrefixParam false zeroClient).2.2 = none ∧
    (nfs_client_open envPrefixParam false zeroClient).2.1.fh = true ∧
    (nfs_client_open envPrefixParam false zeroClient).2.1.context =
      some { uid := 7, gid := 0, tcp_syncnt := 0 } := by
  decide

/-- C5, amended: parameter names are recognized by prefix comparison
(`strncmp` with lengths 3, 3 and 10 against `uid`, `gid`, `tcp-syncnt`).
If any query parameter has no value or a name matching none of those
prefixes, open fails with `-EINVAL` and a parameter error, and full cleanup
leaves the client with no context, no file handle and no mounted
connection (the all-zero closed state). -/
theorem open_bad_param_fails_with_cleanup (env : OpenEnv) (uri : ParsedURI)
    (o_creat : Bool) (c : NFSClient)
    (huri : env.uri = some uri) (hslash : uri.pathHasSlash = true)
    (hctx : env.init_context_ok = true)
    (hbad : ∃ p ∈ uri.query, param_bad p = true) :
    (nfs_client_open env o_creat c).1 = -EINVAL ∧
    (nfs_client_open env o_creat c).2.1 = zeroClient ∧
    ∃ e, (nfs_client_open env o_creat c).2.2 = some e ∧
      (e = OpenErr.paramNoValue ∨ e = OpenErr.unknownParam) := by
  obtain ⟨e, ctx', hloop, he⟩ := params_loop_bad_error uri.query freshContext hbad
  have hopen : nfs_client_open env o_creat c = (-EINVAL, zeroClient, some e) := by
    simp [nfs_client_open, huri, hslash, hctx, hloop, nfs_client_close]
  rw [hopen]
  exact ⟨rfl, rfl, e, rfl, he⟩

/-- C5 witness: opening with the unknown parameter `foo=bar` fails with
`-EINVAL`, a parameter error, and a fully zeroed client. -/
theorem open_bad_param_fails_with_cleanup_witness :
    (nfs_client_open envBadParam false zeroClient).1 = -EINVAL ∧
    (nfs_client_open envBadParam false zeroClient).2.1 = zeroClient ∧
    ∃ e, (nfs_client_open envBadParam false zeroClient).2.2 = some e ∧
      (e = OpenErr.paramNoValue ∨ e = OpenErr.unknownParam) :=
  open_bad_param_fails_with_cleanup envBadParam uriBadParam false zeroClient
    rfl rfl rfl
    ⟨{ name := "foo".toList, value := some "bar".toList }, by decide, by decide⟩

/-- C7, counterexample: the claim covers every non-negative completion
status, but the callback copies the reported stat only when the status is
exactly zero; with status 1 the returned value is computed from the
uninitialized stack stat (here all-zero), not from the reported metadata
(3 blocks of 512 bytes). -/
theorem alloc_size_positive_status_cex :
    nfs_get_allocated_file_size true 1 statReported dummyStat = 0 ∧
    statReported.st_blocks * statReported.st_blksize = 1536 ∧
    nfs_get_allocated_file_size true 1 statReported dummyStat ≠
      statReported.st_blocks * statReported.st_blksize := by
  decide

/-- C7, amended: if the metadata fetch completes with status exactly zero,
the allocated-size query returns the reported block count times block size;
a negative completed status is returned verbatim.  (A positive status would
leave the stat buffer unwritten.) -/
theorem alloc_size_status_zero_reports_metadata (s : Int)
    (reported stackSt : Stat) :
    (s = 0 → nfs_get_allocated_file_size true s reported stackSt =
      reported.st_blocks * reported.st_blksize) ∧
    (s < 0 → nfs_get_allocated_file_size true s reported stackSt = s) := by
  constructor
  · intro h
    subst h
    simp [nfs_get_allocated_file_size, nfs_co_generic_cb]
  · intro h
    simp [nfs_get_allocated_file_size, nfs_co_generic_cb, h, h.ne,
      not_lt.mpr h.le, h.not_lt]

/-- C7 witness: with completed status 0 the query reports 3 × 512 = 1536;
with completed status -2 it returns -2. -/
theorem alloc_size_status_zero_reports_metadata_witness :
    nfs_get_allocated_file_size true 0 statReported dummyStat =
      statReported.st_blocks * statReported.st_blksize ∧
    nfs_get_allocated_file_size true (-2) statReported dummyStat = -2 :=
  ⟨(alloc_size_status_zero_reports_metadata 0 statReported dummyStat).1 rfl,
   (alloc_size_status_zero_reports_metadata (-2) statReported dummyStat).2
     (by decide)⟩

/-- C9: the event-bridge update leaves the stored mask equal to the
engine's desired mask; it performs no registration when the desired mask
equals the stored one, and otherwise re-registers the fd with a read
handler exactly when `POLLIN` is set and a write handler exactly when
`POLLOUT` is set. -/
theorem set_events_mask_update (c : NFSClient) (ev : Nat) :
    (nfs_set_events c ev).1.events = ev ∧
    (ev = c.events → (nfs_set_events c ev).2 = none) ∧
    (ev ≠ c.events → (nfs_set_events c ev).2 =
      some { read_handler := ev.land POLLIN != 0,
             write_handler := ev.land POLLOUT != 0 }) := by
  refine ⟨?_, fun h => ?_, fun h => ?_⟩
  · simp only [nfs_set_events]
    split_ifs <;> rfl
  · simp [nfs_set_events, h]
  · simp [nfs_set_events, h]

/-- C9 witness: with stored mask 0, desired mask 5 (`POLLIN | POLLOUT`)
re-registers with both handlers; desired mask 0 performs no registration. -/
theorem set_events_mask_update_witness :
    (nfs_set_events zeroClient 5).2 =
      some { read_handler := (5 : Nat).land POLLIN != 0,
             write_handler := (5 : Nat).land POLLOUT != 0 } ∧
    (nfs_set_events zeroClient 0).2 = none :=
  ⟨(set_events_mask_update zeroClient 5).2.2 (by decide),
   (set_events_mask_update zeroClient 0).2.1 (by decide)⟩

/-- C10: a successful open returns
`DIV_ROUND_UP(st_size, BDRV_SECTOR_SIZE)` sectors, which is the ceiling of
the byte size over the sector size: an exact multiple gives
`st_size / 512`, anything else is rounded up to the next whole sector,
never truncated down. -/
theorem open_size_is_ceiling (env : OpenEnv) (o_creat : Bool) (c : NFSClient)
    (h : (nfs_client_open env o_creat c).2.2 = none) :
    (nfs_client_open env o_creat c).1 =
      ((DIV_ROUND_UP env.st.st_size BDRV_SECTOR_SIZE : Nat) : Int) ∧
    DIV_ROUND_UP env.st.st_size BDRV_SECTOR_SIZE =
      env.st.st_size / BDRV_SECTOR_SIZE +
        (if env.st.st_size % BDRV_SECTOR_SIZE = 0 then 0 else 1) := by
  constructor
  · rcases henv : env.uri with _ | uri <;>
      simp only [nfs_client_open, henv] at h ⊢
    · simp at h
    · rcases hloop : nfs_open_params_loop uri.query freshContext with ⟨e, ctx⟩ | ctx <;>
        simp only [hloop] at h ⊢ <;> split_ifs at h ⊢ <;> simp_all
  · simp only [DIV_ROUND_UP, BDRV_SECTOR_SIZE]
    split_ifs with hm <;> omega

/-- C10 witness: a fully successful open of a 1025-byte file reports
`DIV_ROUND_UP 1025 512 = 3` sectors (and the ceiling identity holds). -/
theorem open_size_is_ceiling_witness :
    (nfs_client_open envOpenOk false zeroClient).1 =
      ((DIV_ROUND_UP envOpenOk.st.st_size BDRV_SECTOR_SIZE : Nat) : Int) ∧
    DIV_ROUND_UP envOpenOk.st.st_size BDRV_SECTOR_SIZE =
      envOpenOk.st.st_size / BDRV_SECTOR_SIZE +
        (if envOpenOk.st.st_size % BDRV_SECTOR_SIZE = 0 then 0 else 1) :=
  open_size_is_ceiling envOpenOk false zeroClient (by decide)

end Nfs
